import Mathlib

/-!
Shallow embedding of the newswatch credibility-scoring core
(src/services/NLPAnalyzer.ts, src/services/FactChecker.ts,
src/services/GuardianService.ts) and proofs about the claims of its
specification.

Modelling conventions:
- JS numbers carrying scores/confidences are embedded as `ℚ` (all the
  arithmetic the core performs on them is exact decimal arithmetic).
- JS strings are embedded as `String`; `String.prototype.includes` is the
  executable substring test `strHasSub`; `toLowerCase` is an ASCII
  character-wise lowering, which is what the code relies on.
- Timestamps (`new Date()`), the random report id and logging are omitted:
  no scored or compared field depends on them.
- The sentence segmenter (the external `compromise` library) and the remote
  fact-check transport (axios) are external collaborators; they enter the
  embedding as explicit parameters (`split`, `RemoteOutcome`).
-/

namespace NewsWatch

/-! ### String primitives -/

/-- Does `s` start with the pattern `pat` (character lists)? -/
def subAt : List Char → List Char → Bool
  | [], _ => true
  | _ :: _, [] => false
  | p :: ps, c :: cs => p == c && subAt ps cs

/-- Does the pattern occur at some position of the list? -/
def subSearch (pat : List Char) : List Char → Bool
  | [] => subAt pat []
  | c :: cs => subAt pat (c :: cs) || subSearch pat cs

/-- JS `s.includes(pat)`: substring occurrence test. -/
def strHasSub (s pat : String) : Bool := subSearch pat.data s.data

/-- Index of the first occurrence of the pattern, JS `indexOf` (None for -1). -/
def idxSearch (pat : List Char) : List Char → Option Nat
  | [] => if subAt pat [] then some 0 else none
  | c :: cs => if subAt pat (c :: cs) then some 0 else (idxSearch pat cs).map (· + 1)

/-- JS `toLowerCase` on the ASCII strings the analyzer handles. -/
def strToLower (s : String) : String := String.mk (s.data.map Char.toLower)

/-- Number of positions of `s` at which `pat` occurs (a counting notion used
to state claims about occurrence counts; the source never computes it). -/
def occAux (pat : List Char) : List Char → Nat
  | [] => if subAt pat [] then 1 else 0
  | c :: cs => (if subAt pat (c :: cs) then 1 else 0) + occAux pat cs

/-- Occurrence count of `pat` in `s`, duplicates and overlaps included. -/
def countOcc (s pat : String) : Nat := occAux pat.data s.data

/-! ### Data model (src/types, as described by the spec and used by the core).
Fields never read by the embedded functions (timestamps, urls, back
references) are omitted. -/

structure NewsArticle where
  title : String
  content : String
deriving DecidableEq, Repr

structure Claim where
  text : String
  context : String
deriving DecidableEq, Repr

inductive Verdict where
  | TRUE
  | FALSE
  | MIXED
  | UNVERIFIED
  | UNKNOWN
deriving DecidableEq, Repr

structure FactCheckResult where
  claim : Claim
  verdict : Verdict
  confidence : ℚ
  sources : List String
  explanation : String
deriving DecidableEq, Repr

structure MisinformationReport where
  article : NewsArticle
  claims : List Claim
  factCheckResults : List FactCheckResult
  overallScore : ℚ
  flags : List String
deriving DecidableEq, Repr

/-! ### NLPAnalyzer (src/services/NLPAnalyzer.ts) -/

/-- `claimIndicators` of NLPAnalyzer. -/
def claimIndicators : List String :=
  ["said", "says", "reported", "announced", "confirmed", "revealed",
   "claimed", "stated", "according to", "research shows", "studies show",
   "data shows", "statistics show", "experts say", "scientists found"]

/-- `uncertaintyIndicators` of NLPAnalyzer. -/
def uncertaintyIndicators : List String :=
  ["allegedly", "supposedly", "reportedly", "rumored", "unconfirmed",
   "believed", "might", "may", "could", "possibly", "perhaps"]

/-- `getContext`: ±`contextSize` characters around the first occurrence of the
sentence in the full text; the sentence itself when it cannot be located. -/
def getContext (sentence fullText : String) (contextSize : Nat) : String :=
  match idxSearch sentence.data fullText.data with
  | none => sentence
  | some index =>
    let start := index - contextSize
    let stop := min fullText.data.length (index + sentence.data.length + contextSize)
    String.mk ((fullText.data.drop start).take (stop - start))

/-- `extractClaims`: sentence segmentation is done by the external
`compromise` library, so it enters as the parameter `split`; a sentence
becomes a claim when it contains a claim-indicator phrase (case-insensitive)
or a digit (the regex `/\d+/`). -/
def extractClaims (split : String → List String) (article : NewsArticle) : List Claim :=
  (split article.content).filterMap (fun sentence =>
    let hasClaimIndicator := claimIndicators.any (fun ind => strHasSub (strToLower sentence) ind)
    let hasNumbers := sentence.data.any Char.isDigit
    if hasClaimIndicator || hasNumbers then
      some { text := sentence, context := getContext sentence article.content 100 }
    else none)

/-- Distinct uncertainty-lexicon words occurring in the lowercased content:
the code filters the fixed lexicon by `content.includes(word)`, so each
lexicon word counts at most once however often it occurs. -/
def uncertaintyCount (article : NewsArticle) : Nat :=
  (uncertaintyIndicators.filter (fun w => strHasSub (strToLower article.content) w)).length

/-- Title sensationalism test: `/!{2,}/` on the raw title (equivalently the
substring `!!`), or BREAKING/SHOCKING/UNBELIEVABLE case-insensitively. -/
def sensationalTitle (article : NewsArticle) : Bool :=
  strHasSub article.title "!!" ||
    strHasSub (strToLower article.title) "breaking" ||
    strHasSub (strToLower article.title) "shocking" ||
    strHasSub (strToLower article.title) "unbelievable"

/-- JS `\w` word character. -/
def isWordChar (c : Char) : Bool := c.isAlphanum || c == '_'

/-- ASCII capital letter. -/
def isUpperAZ (c : Char) : Bool := decide ('A' ≤ c) && decide (c ≤ 'Z')

/-- Maximal runs of word characters (accumulator holds the current run
reversed). -/
def tokensAux : List Char → List Char → List String
  | cur, [] => if cur.isEmpty then [] else [String.mk cur.reverse]
  | cur, c :: cs =>
    if isWordChar c then tokensAux (c :: cur) cs
    else if cur.isEmpty then tokensAux [] cs
    else String.mk cur.reverse :: tokensAux [] cs

/-- The word tokens of a string. -/
def wordTokens (s : String) : List String := tokensAux [] s.data

/-- The matches of `/\b[A-Z]{3,}\b/g` in `title`: exactly the word tokens
made of capital letters only, of length at least 3 (a partly-capital token
admits no word boundary inside, so only whole tokens match). Occurrences are
listed as the regex yields them, duplicates included. -/
def capsMatches (title : String) : List String :=
  (wordTokens title).filter (fun t => decide (t.data.length ≥ 3) && t.data.all isUpperAZ)

/-- `capsWords.length` of the analyzer: occurrence count of all-caps words. -/
def capsCount (article : NewsArticle) : Nat := (capsMatches article.title).length

/-- `emotionalWords` of the analyzer. -/
def emotionalWords : List String := ["outrage", "scandal", "crisis", "disaster", "devastating"]

/-- Distinct emotional-lexicon words occurring in the lowercased content. -/
def emotionalCount (article : NewsArticle) : Nat :=
  (emotionalWords.filter (fun w => strHasSub (strToLower article.content) w)).length

/-- `/according to|source|research|study|data/i` on the content. -/
def hasSourcesInContent (article : NewsArticle) : Bool :=
  ["according to", "source", "research", "study", "data"].any
    (fun w => strHasSub (strToLower article.content) w)

structure Analysis where
  score : ℚ
  flags : List String
deriving DecidableEq, Repr

/-- JS `Math.max` on two numbers (kept executable for the kernel). -/
def jsMax (a b : ℚ) : ℚ := if a ≤ b then b else a

/-- JS `Math.min` on two numbers. -/
def jsMin (a b : ℚ) : ℚ := if a ≤ b then a else b

/-- `analyzeMisinformationIndicators`: starts at score 1.0, applies the five
independent penalties in source order, pushing one flag each, then clamps
the score to [0, 1]. -/
def analyzeMisinformationIndicators (article : NewsArticle) : Analysis :=
  let p1 := uncertaintyCount article > 5
  let p2 := sensationalTitle article = true
  let p3 := capsCount article > 2
  let p4 := emotionalCount article > 3
  let p5 := hasSourcesInContent article = false
  let flags :=
    (if p1 then ["High uncertainty language detected"] else []) ++
    (if p2 then ["Sensational title detected"] else []) ++
    (if p3 then ["Excessive capitalization detected"] else []) ++
    (if p4 then ["High emotional language detected"] else []) ++
    (if p5 then ["Lack of cited sources"] else [])
  let score : ℚ := 1 -
    (if p1 then 0.2 else 0) - (if p2 then 0.15 else 0) - (if p3 then 0.1 else 0) -
    (if p4 then 0.1 else 0) - (if p5 then 0.2 else 0)
  { score := jsMax 0 (jsMin 1 score), flags := flags }

/-! ### FactChecker (src/services/FactChecker.ts) -/

/-- `redFlags` of the heuristic fact checker. -/
def redFlags : List String := ["conspiracy", "cover-up", "they don\x27t want you to know"]

/-- `verificationIndicators` of the heuristic fact checker. -/
def verificationIndicators : List String := ["study published", "peer-reviewed", "official statement"]

/-- The four source-citation markers of the heuristic statistics rule
(`/according to|source|research|study/`). -/
def claimSourceMarkers : List String := ["according to", "source", "research", "study"]

/-- ASCII whitespace, for the regex class `\s`. -/
def isWsChar (c : Char) : Bool :=
  c == ' ' || c == '\t' || c == '\n' || c == '\r' || c == '\x0b' || c == '\x0c'

/-- A match of `/\d+%|\d+\s*(million|billion|thousand)/` exists exactly when
some digit is followed immediately by `%`, or by optional whitespace and then
a scale word (taking the last digit of the matched run). -/
def statsScan : List Char → Bool
  | [] => false
  | c :: cs =>
    (c.isDigit &&
      ((match cs with
        | '%' :: _ => true
        | _ => false) ||
       (subAt "million".data (cs.dropWhile isWsChar) ||
        subAt "billion".data (cs.dropWhile isWsChar) ||
        subAt "thousand".data (cs.dropWhile isWsChar))))
    || statsScan cs

/-- `hasNumbers` of the heuristic rule. -/
def hasStatsPattern (text : String) : Bool := statsScan text.data

/-- `hasRedFlags`: some conspiracy-style phrase occurs in the (already
lowercased) claim text. -/
def conspiracyHit (text : String) : Bool := redFlags.any (fun f => strHasSub text f)

/-- `hasVerification`: some verification-indicator phrase occurs. -/
def verificationHit (text : String) : Bool :=
  verificationIndicators.any (fun i => strHasSub text i)

/-- The unsourced-statistics rule fires: number pattern present and no
source-citation marker. -/
def statsNoSourceHit (text : String) : Bool :=
  hasStatsPattern text && !(claimSourceMarkers.any (fun w => strHasSub text w))

/-- The flags the heuristic pushes, in source order (each rule is an
independent `if`; the three can all fire on one text). -/
def heuristicFlags (text : String) : List String :=
  (if conspiracyHit text then ["Contains conspiracy language"] else []) ++
  (if verificationHit text then ["Contains verification indicators"] else []) ++
  (if statsNoSourceHit text then ["Contains statistics without clear sources"] else [])

/-- Final verdict of the heuristic: starts UNVERIFIED, the conspiracy rule
sets FALSE, and the verification rule — an independent `if`, executed
after it — overwrites with TRUE when it fires. -/
def heuristicVerdict (text : String) : Verdict :=
  if verificationHit text then .TRUE
  else if conspiracyHit text then .FALSE
  else .UNVERIFIED

/-- Confidence after the conspiracy (0.3) and verification (0.7) rules,
starting from 0.5; the later verification assignment wins when both fire. -/
def heuristicBaseConfidence (text : String) : ℚ :=
  if verificationHit text then 0.7
  else if conspiracyHit text then 0.3
  else 0.5

/-- Confidence after the unsourced-statistics adjustment
`max(0.3, confidence - 0.2)`. -/
def heuristicConfidence (text : String) : ℚ :=
  if statsNoSourceHit text then jsMax 0.3 (heuristicBaseConfidence text - 0.2)
  else heuristicBaseConfidence text

/-- Default explanation when no heuristic rule fired. -/
def heuristicDefaultExplanation : String := "Heuristic analysis - manual verification recommended"

/-- `heuristicFactCheck`: the local fallback fact check. The explanation is
`flags.join('; ') || default`; the join is falsy exactly when the flag list
is empty, since every pushed flag string is non-empty. -/
def heuristicFactCheck (claim : Claim) : FactCheckResult :=
  let text := strToLower claim.text
  { claim := claim
    verdict := heuristicVerdict text
    confidence := heuristicConfidence text
    sources := []
    explanation :=
      if (heuristicFlags text).isEmpty then heuristicDefaultExplanation
      else String.intercalate "; " (heuristicFlags text) }

/-- `normalizeVerdict`: ordered case-insensitive substring checks over the
free-text rating. -/
def normalizeVerdict (textualRating : String) : Verdict :=
  let rating := strToLower textualRating
  if strHasSub rating "true" || strHasSub rating "correct" || strHasSub rating "accurate" then
    .TRUE
  else if strHasSub rating "false" || strHasSub rating "incorrect" || strHasSub rating "wrong" then
    .FALSE
  else if strHasSub rating "mixed" || strHasSub rating "partly" || strHasSub rating "mostly" then
    .MIXED
  else if strHasSub rating "unverified" || strHasSub rating "unproven" then
    .UNVERIFIED
  else
    .UNKNOWN

/-- What one remote lookup attempt comes to, as seen by `checkClaim`:
a transport failure (caught and logged), no usable claim review in the
response, or a first review with its textual rating and url. -/
inductive RemoteOutcome where
  | transportFailure
  | noReview
  | review (rating url : String)
deriving DecidableEq, Repr

/-- `checkClaim`: with a configured API key and a usable review, build the
remote-sourced result (fixed confidence 0.8, the rating as explanation);
otherwise — no key, transport failure, or no review — fall back to the
heuristic. -/
def checkClaim (googleApiKey : Option String) (remote : RemoteOutcome) (claim : Claim) :
    FactCheckResult :=
  match googleApiKey with
  | none => heuristicFactCheck claim
  | some _ =>
    match remote with
    | .review rating url =>
      { claim := claim
        verdict := normalizeVerdict rating
        confidence := 0.8
        sources := [url]
        explanation := rating }
    | _ => heuristicFactCheck claim

/-! ### GuardianService (src/services/GuardianService.ts) -/

/-- The per-result directional score of `calculateOverallScore`'s reduce:
`confidence`, flipped to `1 - confidence` for FALSE, fixed 0.5 for MIXED. -/
def directionalScore (result : FactCheckResult) : ℚ :=
  if result.verdict = .FALSE then 1 - result.confidence
  else if result.verdict = .MIXED then 0.5
  else result.confidence

/-- `calculateOverallScore`: the stylistic score alone when there are no
fact-check results, else the 40/60 blend with the average directional
score. -/
def calculateOverallScore (nlpScore : ℚ) (factCheckResults : List FactCheckResult) : ℚ :=
  if factCheckResults.length = 0 then nlpScore
  else
    let avgFactCheckScore :=
      (factCheckResults.map directionalScore).sum / (factCheckResults.length : ℚ)
    nlpScore * 0.4 + avgFactCheckScore * 0.6

/-- `processArticle`: extract claims (none ⇒ no report), analyze style,
fact-check the claims through the orchestrator (passed as the parameter
`check`, covering both variants and per-claim skipping), combine the scores
and assemble the report. Report id and timestamp are omitted. -/
def processArticle (split : String → List String)
    (check : List Claim → List FactCheckResult) (article : NewsArticle) :
    Option MisinformationReport :=
  let claims := extractClaims split article
  if claims.isEmpty then none
  else
    let analysis := analyzeMisinformationIndicators article
    let factCheckResults := check claims
    let overallScore := calculateOverallScore analysis.score factCheckResults
    some { article := article
           claims := claims
           factCheckResults := factCheckResults
           overallScore := overallScore
           flags := analysis.flags }

/-- The report sequence of one monitoring cycle: articles are processed in
order, and an article whose processing yields no report (no claims, or a
caught per-article failure) contributes nothing. -/
def monitoringCycleReports (split : String → List String)
    (check : List Claim → List FactCheckResult) (articles : List NewsArticle) :
    List MisinformationReport :=
  articles.filterMap (processArticle split check)

/-! ### Spec-side comparison definitions and concrete inputs -/

/-- The per-result directional score exactly as the spec words it:
TRUE, UNVERIFIED and UNKNOWN contribute the confidence, FALSE contributes
`1 - confidence`, MIXED contributes 0.5 whatever the confidence. -/
def directionalScoreSpec (r : FactCheckResult) : ℚ :=
  match r.verdict with
  | .TRUE => r.confidence
  | .UNVERIFIED => r.confidence
  | .UNKNOWN => r.confidence
  | .FALSE => 1 - r.confidence
  | .MIXED => 0.5

/-- A minimal claim used to build concrete fact-check results. -/
def claim0 : Claim := { text := "", context := "" }

/-- Scenario E of the spec: one TRUE and one FALSE result, both at
confidence 0.8. -/
def scenarioE : List FactCheckResult :=
  [{ claim := claim0, verdict := .TRUE, confidence := 0.8, sources := [], explanation := "" },
   { claim := claim0, verdict := .FALSE, confidence := 0.8, sources := [], explanation := "" }]

/-! ### Theorems -/

/-- The source's directional score agrees with the spec's wording of it. -/
theorem directionalScore_eq_spec (r : FactCheckResult) :
    directionalScore r = directionalScoreSpec r := by
  unfold directionalScore directionalScoreSpec
  cases r.verdict <;> simp

/-- C1: for a non-empty result list the combined score is
`0.4 * stylistic + 0.6 * average directional score`, with the directional
score as the spec describes it per verdict. -/
theorem calculateOverallScore_weighted (s : ℚ) (rs : List FactCheckResult)
    (h : rs ≠ []) :
    calculateOverallScore s rs =
      0.4 * s + 0.6 * ((rs.map directionalScoreSpec).sum / (rs.length : ℚ)) := by
  unfold calculateOverallScore
  have hlen : rs.length ≠ 0 := by simpa using h
  rw [if_neg hlen]
  have hmap : rs.map directionalScore = rs.map directionalScoreSpec :=
    List.map_congr_left fun r _ => directionalScore_eq_spec r
  rw [hmap]
  ring

/-- Witness for C1, scenario E: one TRUE and one FALSE result at confidence
0.8 with stylistic score 0.7 combine to exactly 0.58. -/
theorem calculateOverallScore_weighted_witness :
    scenarioE ≠ [] ∧ calculateOverallScore 0.7 scenarioE = 0.58 := by
  refine ⟨by simp [scenarioE], ?_⟩
  rw [calculateOverallScore_weighted 0.7 scenarioE (by simp [scenarioE])]
  norm_num [scenarioE, directionalScoreSpec]

/-- C9: combining any stylistic score with an empty fact-check result list
returns the stylistic score unchanged, and in particular 0.8 stays 0.8
(scenario D). -/
theorem calculateOverallScore_empty_id (s : ℚ) :
    calculateOverallScore s [] = s ∧ calculateOverallScore 0.8 [] = 0.8 :=
  ⟨rfl, rfl⟩

/-- C4: verdict normalization is an ordered case-insensitive substring
check — TRUE-like first, then FALSE-like, then MIXED-like, then
UNVERIFIED-like, default UNKNOWN — so a later category is never reached once
an earlier one matched; in particular "Mostly False" normalizes to FALSE and
"Mostly True" to TRUE. -/
theorem normalizeVerdict_ordered (rating : String) :
    ((strHasSub (strToLower rating) "true" || strHasSub (strToLower rating) "correct" ||
        strHasSub (strToLower rating) "accurate") = true →
      normalizeVerdict rating = .TRUE) ∧
    ((strHasSub (strToLower rating) "true" || strHasSub (strToLower rating) "correct" ||
        strHasSub (strToLower rating) "accurate") = false →
      (strHasSub (strToLower rating) "false" || strHasSub (strToLower rating) "incorrect" ||
        strHasSub (strToLower rating) "wrong") = true →
      normalizeVerdict rating = .FALSE) ∧
    ((strHasSub (strToLower rating) "true" || strHasSub (strToLower rating) "correct" ||
        strHasSub (strToLower rating) "accurate") = false →
      (strHasSub (strToLower rating) "false" || strHasSub (strToLower rating) "incorrect" ||
        strHasSub (strToLower rating) "wrong") = false →
      (strHasSub (strToLower rating) "mixed" || strHasSub (strToLower rating) "partly" ||
        strHasSub (strToLower rating) "mostly") = true →
      normalizeVerdict rating = .MIXED) ∧
    ((strHasSub (strToLower rating) "true" || strHasSub (strToLower rating) "correct" ||
        strHasSub (strToLower rating) "accurate") = false →
      (strHasSub (strToLower rating) "false" || strHasSub (strToLower rating) "incorrect" ||
        strHasSub (strToLower rating) "wrong") = false →
      (strHasSub (strToLower rating) "mixed" || strHasSub (strToLower rating) "partly" ||
        strHasSub (strToLower rating) "mostly") = false →
      (strHasSub (strToLower rating) "unverified" ||
        strHasSub (strToLower rating) "unproven") = true →
      normalizeVerdict rating = .UNVERIFIED) ∧
    ((strHasSub (strToLower rating) "true" || strHasSub (strToLower rating) "correct" ||
        strHasSub (strToLower rating) "accurate") = false →
      (strHasSub (strToLower rating) "false" || strHasSub (strToLower rating) "incorrect" ||
        strHasSub (strToLower rating) "wrong") = false →
      (strHasSub (strToLower rating) "mixed" || strHasSub (strToLower rating) "partly" ||
        strHasSub (strToLower rating) "mostly") = false →
      (strHasSub (strToLower rating) "unverified" ||
        strHasSub (strToLower rating) "unproven") = false →
      normalizeVerdict rating = .UNKNOWN) ∧
    normalizeVerdict "Mostly False" = .FALSE ∧
    normalizeVerdict "Mostly True" = .TRUE := by
  refine ⟨?_, ?_, ?_, ?_, ?_, by decide, by decide⟩ <;>
    intros <;> simp only [normalizeVerdict] <;> simp_all

/-- C5: without a configured credential, or when the remote lookup failed or
produced no usable review, `checkClaim` returns exactly the heuristic
result. -/
theorem checkClaim_fallback (key : Option String) (remote : RemoteOutcome) (claim : Claim)
    (h : key = none ∨ remote = .transportFailure ∨ remote = .noReview) :
    checkClaim key remote claim = heuristicFactCheck claim := by
  rcases h with h | h | h
  · subst h; rfl
  · subst h; cases key <;> rfl
  · subst h; cases key <;> rfl

/-- Witness for C5 at a concrete claim with no credential configured. -/
theorem checkClaim_fallback_witness :
    checkClaim none RemoteOutcome.noReview claim0 = heuristicFactCheck claim0 :=
  checkClaim_fallback none RemoteOutcome.noReview claim0 (Or.inl rfl)

/-- A claim text containing both a conspiracy-style and a
verification-indicator phrase. -/
def conspiracyVerifiedClaim : Claim :=
  { text := "This conspiracy was peer-reviewed", context := "" }

/-- Counterexample to C2: on a text containing both "conspiracy" and
"peer-reviewed" the heuristic's verification branch also fires and
overwrites the conspiracy assignment, yielding verdict TRUE at confidence
0.7 — not FALSE at 0.3. -/
theorem heuristic_conspiracy_overridden_cex :
    strHasSub (strToLower conspiracyVerifiedClaim.text) "conspiracy" = true ∧
    strHasSub (strToLower conspiracyVerifiedClaim.text) "peer-reviewed" = true ∧
    (heuristicFactCheck conspiracyVerifiedClaim).verdict = Verdict.TRUE ∧
    (heuristicFactCheck conspiracyVerifiedClaim).confidence = 0.7 := by
  have h1 : conspiracyHit (strToLower conspiracyVerifiedClaim.text) = true := by decide
  have h2 : verificationHit (strToLower conspiracyVerifiedClaim.text) = true := by decide
  have h3 : statsNoSourceHit (strToLower conspiracyVerifiedClaim.text) = false := by decide
  refine ⟨by decide, by decide, ?_, ?_⟩
  · simp [heuristicFactCheck, heuristicVerdict, h2]
  · simp [heuristicFactCheck, heuristicConfidence, heuristicBaseConfidence, h2, h3]

/-- C2 (amended): on a claim text containing a conspiracy-style phrase and
no verification-indicator phrase, the heuristic assigns verdict FALSE and
final confidence 0.3 (the unsourced-statistics adjustment cannot move it,
since it floors at 0.3). -/
theorem heuristic_conspiracy_false (claim : Claim)
    (h1 : conspiracyHit (strToLower claim.text) = true)
    (h2 : verificationHit (strToLower claim.text) = false) :
    (heuristicFactCheck claim).verdict = Verdict.FALSE ∧
    (heuristicFactCheck claim).confidence = 0.3 := by
  constructor
  · simp [heuristicFactCheck, heuristicVerdict, h1, h2]
  · simp only [heuristicFactCheck, heuristicConfidence, heuristicBaseConfidence, h1, h2,
      Bool.false_eq_true, if_false, if_true]
    split
    · unfold jsMax; rw [if_neg (by norm_num)]
    · rfl

/-- A claim text with a conspiracy-style phrase and no verification
indicator. -/
def pureConspiracyClaim : Claim := { text := "This is a conspiracy", context := "" }

/-- Witness for the amended C2 at a concrete conspiracy-only claim text. -/
theorem heuristic_conspiracy_false_witness :
    conspiracyHit (strToLower pureConspiracyClaim.text) = true ∧
    verificationHit (strToLower pureConspiracyClaim.text) = false ∧
    ((heuristicFactCheck pureConspiracyClaim).verdict = Verdict.FALSE ∧
      (heuristicFactCheck pureConspiracyClaim).confidence = 0.3) :=
  ⟨by decide, by decide,
    heuristic_conspiracy_false pureConspiracyClaim (by decide) (by decide)⟩

/-- Sum of a list of rationals each in [0, 1] lies in [0, length]. -/
theorem listSum_bounds (l : List ℚ) (h : ∀ x ∈ l, 0 ≤ x ∧ x ≤ 1) :
    0 ≤ l.sum ∧ l.sum ≤ (l.length : ℚ) := by
  induction l with
  | nil => simp
  | cons a t ih =>
    have ha := h a (by simp)
    have ht := ih (fun x hx => h x (by simp [hx]))
    simp only [List.sum_cons, List.length_cons]
    push_cast
    constructor <;> linarith [ha.1, ha.2, ht.1, ht.2]

/-- Each directional score lies in [0, 1] when the confidence does. -/
theorem directionalScore_bounds (r : FactCheckResult)
    (h0 : 0 ≤ r.confidence) (h1 : r.confidence ≤ 1) :
    0 ≤ directionalScore r ∧ directionalScore r ≤ 1 := by
  unfold directionalScore
  split_ifs <;> constructor <;> linarith

/-- The combined score lies in [0, 1] when the stylistic score and every
confidence do. -/
theorem calculateOverallScore_bounds (s : ℚ) (rs : List FactCheckResult)
    (hs0 : 0 ≤ s) (hs1 : s ≤ 1)
    (hc : ∀ r ∈ rs, 0 ≤ r.confidence ∧ r.confidence ≤ 1) :
    0 ≤ calculateOverallScore s rs ∧ calculateOverallScore s rs ≤ 1 := by
  unfold calculateOverallScore
  split_ifs with h
  · exact ⟨hs0, hs1⟩
  · have hlen : 0 < (rs.length : ℚ) := by
      have : 0 < rs.length := Nat.pos_of_ne_zero h
      exact_mod_cast this
    have hb : ∀ x ∈ rs.map directionalScore, 0 ≤ x ∧ x ≤ 1 := by
      intro x hx
      obtain ⟨r, hr, rfl⟩ := List.mem_map.mp hx
      exact directionalScore_bounds r (hc r hr).1 (hc r hr).2
    obtain ⟨hsum0, hsumL⟩ := listSum_bounds _ hb
    rw [List.length_map] at hsumL
    have havg0 : 0 ≤ (rs.map directionalScore).sum / (rs.length : ℚ) :=
      div_nonneg hsum0 (le_of_lt hlen)
    have havg1 : (rs.map directionalScore).sum / (rs.length : ℚ) ≤ 1 :=
      (div_le_one hlen).mpr hsumL
    constructor <;> nlinarith

/-- The stylistic score is clamped to [0, 1]. -/
theorem analyze_score_bounds (article : NewsArticle) :
    0 ≤ (analyzeMisinformationIndicators article).score ∧
      (analyzeMisinformationIndicators article).score ≤ 1 := by
  unfold analyzeMisinformationIndicators jsMax jsMin
  dsimp only
  split_ifs <;> constructor <;> first | rfl | linarith

/-- Inversion of `processArticle`: a produced report carries the analyzer's
flags, the orchestrator's results for the extracted claims, and the combined
score of the analyzer's score with those results. -/
theorem processArticle_some_eq (split : String → List String)
    (check : List Claim → List FactCheckResult) (article : NewsArticle)
    (report : MisinformationReport)
    (h : processArticle split check article = some report) :
    report.flags = (analyzeMisinformationIndicators article).flags ∧
    report.factCheckResults = check (extractClaims split article) ∧
    report.overallScore =
      calculateOverallScore (analyzeMisinformationIndicators article).score
        report.factCheckResults := by
  simp only [processArticle] at h
  split at h
  · exact absurd h (by simp)
  · obtain rfl := (Option.some.injEq _ _).mp h
    exact ⟨rfl, rfl, rfl⟩

/-- C3: the stylistic score lies in [0, 1], and the overall score of every
report the pipeline produces lies in [0, 1] whenever the report's fact-check
confidences do. -/
theorem report_scores_bounded (split : String → List String)
    (check : List Claim → List FactCheckResult) (article : NewsArticle)
    (report : MisinformationReport)
    (hrep : processArticle split check article = some report)
    (hconf : ∀ r ∈ report.factCheckResults, 0 ≤ r.confidence ∧ r.confidence ≤ 1) :
    (0 ≤ (analyzeMisinformationIndicators article).score ∧
      (analyzeMisinformationIndicators article).score ≤ 1) ∧
    0 ≤ report.overallScore ∧ report.overallScore ≤ 1 := by
  obtain ⟨-, -, hscore⟩ := processArticle_some_eq split check article report hrep
  obtain ⟨ha0, ha1⟩ := analyze_score_bounds article
  refine ⟨⟨ha0, ha1⟩, ?_⟩
  rw [hscore]
  exact calculateOverallScore_bounds _ _ ha0 ha1 hconf

/-- The sentence segmenter used for concrete runs: the whole content as one
sentence. -/
def sampleSplit : String → List String := fun s => [s]

/-- An orchestrator that returns no results. -/
def emptyCheck : List Claim → List FactCheckResult := fun _ => []

/-- A concrete article from which one claim is extracted. -/
def sampleArticle : NewsArticle :=
  { title := "Plain title", content := "He said 5 things about the data." }

/-- The report the pipeline produces for `sampleArticle` under `sampleSplit`
and `emptyCheck`. -/
def sampleReport : MisinformationReport :=
  { article := sampleArticle
    claims := [{ text := "He said 5 things about the data.",
                 context := "He said 5 things about the data." }]
    factCheckResults := []
    overallScore := 1
    flags := [] }

/-- Witness for C3 at a concretely produced report. -/
theorem report_scores_bounded_witness :
    processArticle sampleSplit emptyCheck sampleArticle = some sampleReport ∧
    ((0 ≤ (analyzeMisinformationIndicators sampleArticle).score ∧
        (analyzeMisinformationIndicators sampleArticle).score ≤ 1) ∧
      0 ≤ sampleReport.overallScore ∧ sampleReport.overallScore ≤ 1) :=
  ⟨by with_unfolding_all rfl,
    report_scores_bounded sampleSplit emptyCheck sampleArticle sampleReport
      (by with_unfolding_all rfl) (by simp [sampleReport])⟩

/-- Each analyzer flag string is in the flag list exactly when its trigger
condition holds. -/
theorem analyze_flag_mem (article : NewsArticle) :
    ("High uncertainty language detected" ∈ (analyzeMisinformationIndicators article).flags ↔
      uncertaintyCount article > 5) ∧
    ("Sensational title detected" ∈ (analyzeMisinformationIndicators article).flags ↔
      sensationalTitle article = true) ∧
    ("Excessive capitalization detected" ∈ (analyzeMisinformationIndicators article).flags ↔
      capsCount article > 2) ∧
    ("High emotional language detected" ∈ (analyzeMisinformationIndicators article).flags ↔
      emotionalCount article > 3) ∧
    ("Lack of cited sources" ∈ (analyzeMisinformationIndicators article).flags ↔
      hasSourcesInContent article = false) := by
  by_cases p1 : uncertaintyCount article > 5 <;>
  by_cases p2 : sensationalTitle article = true <;>
  by_cases p3 : capsCount article > 2 <;>
  by_cases p4 : emotionalCount article > 3 <;>
  by_cases p5 : hasSourcesInContent article = false <;>
  simp [analyzeMisinformationIndicators, p1, p2, p3, p4, p5]

/-- A title repeating one all-caps word three times. -/
def capsArticle : NewsArticle := { title := "WOW WOW WOW", content := "Nothing here." }

/-- Counterexample to C6: the code counts all-caps occurrences, not distinct
words — a title whose only distinct all-caps word occurs three times still
trips the flag. -/
theorem caps_distinct_cex :
    (capsMatches capsArticle.title).dedup.length = 1 ∧
    "Excessive capitalization detected" ∈ (analyzeMisinformationIndicators capsArticle).flags := by
  exact ⟨by decide, by with_unfolding_all decide⟩

/-- C6 (amended): the capitalization flag fires exactly when the title holds
more than 2 occurrences (duplicates counted) of all-caps words of at least 3
letters, and the flag's penalty term is 0.1 in the clamped score. -/
theorem caps_flag_occurrences (article : NewsArticle) :
    ("Excessive capitalization detected" ∈ (analyzeMisinformationIndicators article).flags ↔
      capsCount article > 2) ∧
    (analyzeMisinformationIndicators article).score =
      jsMax 0 (jsMin 1 (1
        - (if uncertaintyCount article > 5 then 0.2 else 0)
        - (if sensationalTitle article = true then 0.15 else 0)
        - (if capsCount article > 2 then 0.1 else 0)
        - (if emotionalCount article > 3 then 0.1 else 0)
        - (if hasSourcesInContent article = false then 0.2 else 0))) :=
  ⟨(analyze_flag_mem article).2.2.1, rfl⟩

/-- A content repeating one uncertainty word six times. -/
def uncertaintyArticle : NewsArticle :=
  { title := "Some title"
    content := "allegedly allegedly allegedly allegedly allegedly allegedly" }

/-- Counterexample to C7: six occurrences of "allegedly" are more than 5
uncertainty-lexicon hits in the occurrence sense, yet the code counts the
word once (it filters the lexicon by containment) and the flag stays off. -/
theorem uncertainty_occurrences_cex :
    countOcc uncertaintyArticle.content "allegedly" = 6 ∧
    uncertaintyCount uncertaintyArticle = 1 ∧
    "High uncertainty language detected" ∉
      (analyzeMisinformationIndicators uncertaintyArticle).flags := by
  exact ⟨by decide, by decide, by with_unfolding_all decide⟩

/-- C7 (amended): the uncertainty flag fires exactly when more than 5
distinct uncertainty-lexicon words occur in the content — the count is the
number of lexicon words the content contains, each counted once. -/
theorem uncertainty_flag_distinct (article : NewsArticle) :
    ("High uncertainty language detected" ∈ (analyzeMisinformationIndicators article).flags ↔
      uncertaintyCount article > 5) ∧
    uncertaintyCount article =
      (uncertaintyIndicators.filter (fun w => strHasSub (strToLower article.content) w)).length :=
  ⟨(analyze_flag_mem article).1, rfl⟩

/-- C8: when no claims are extracted from an article, its processing yields
no report — whatever orchestrator is plugged in — and the article
contributes nothing to the batch's report sequence. -/
theorem processArticle_no_claims (split : String → List String)
    (check : List Claim → List FactCheckResult) (article : NewsArticle)
    (h : extractClaims split article = []) :
    processArticle split check article = none ∧
    (∀ check2 : List Claim → List FactCheckResult,
      processArticle split check2 article = none) ∧
    ∀ pre post : List NewsArticle,
      monitoringCycleReports split check (pre ++ article :: post) =
        monitoringCycleReports split check (pre ++ post) := by
  have key : ∀ c2 : List Claim → List FactCheckResult,
      processArticle split c2 article = none := by
    intro c2
    simp [processArticle, h]
  refine ⟨key check, key, ?_⟩
  intro pre post
  unfold monitoringCycleReports
  simp [List.filterMap_append, List.filterMap_cons, key check]

/-- An article whose single sentence has no claim indicator and no digit. -/
def noClaimsArticle : NewsArticle := { title := "Plain", content := "Hello world" }

/-- Witness for C8 at a concrete article with no extractable claims. -/
theorem processArticle_no_claims_witness :
    extractClaims sampleSplit noClaimsArticle = [] ∧
    (processArticle sampleSplit emptyCheck noClaimsArticle = none ∧
      (∀ check2 : List Claim → List FactCheckResult,
        processArticle sampleSplit check2 noClaimsArticle = none) ∧
      ∀ pre post : List NewsArticle,
        monitoringCycleReports sampleSplit emptyCheck (pre ++ noClaimsArticle :: post) =
          monitoringCycleReports sampleSplit emptyCheck (pre ++ post)) :=
  ⟨by decide, processArticle_no_claims sampleSplit emptyCheck noClaimsArticle (by decide)⟩

/-- The five flag strings the stylistic analyzer can emit. -/
def stylisticFlagStrings : List String :=
  ["High uncertainty language detected", "Sensational title detected",
   "Excessive capitalization detected", "High emotional language detected",
   "Lack of cited sources"]

/-- Every analyzer flag is one of the five stylistic flag strings. -/
theorem analyze_flags_sub (article : NewsArticle) :
    ∀ f ∈ (analyzeMisinformationIndicators article).flags, f ∈ stylisticFlagStrings := by
  intro f hf
  simp only [analyzeMisinformationIndicators, List.mem_append] at hf
  split_ifs at hf <;> simp_all [stylisticFlagStrings] <;> tauto

/-- C10: a produced report's flags are exactly the stylistic analyzer's
flags; the heuristic fact-checker's flag strings never appear there, and
they surface only in each result's explanation, joined by "; ", with the
default explanation when no heuristic rule fired. -/
theorem report_flags_stylistic (split : String → List String)
    (check : List Claim → List FactCheckResult) (article : NewsArticle)
    (report : MisinformationReport)
    (hrep : processArticle split check article = some report) :
    report.flags = (analyzeMisinformationIndicators article).flags ∧
    (∀ f ∈ report.flags, f ∈ stylisticFlagStrings) ∧
    "Contains conspiracy language" ∉ report.flags ∧
    "Contains verification indicators" ∉ report.flags ∧
    "Contains statistics without clear sources" ∉ report.flags ∧
    ∀ c : Claim,
      (heuristicFactCheck c).explanation =
        (if (heuristicFlags (strToLower c.text)).isEmpty then heuristicDefaultExplanation
         else String.intercalate "; " (heuristicFlags (strToLower c.text))) := by
  obtain ⟨hflags, -, -⟩ := processArticle_some_eq split check article report hrep
  have hsub : ∀ f ∈ report.flags, f ∈ stylisticFlagStrings := by
    rw [hflags]; exact analyze_flags_sub article
  refine ⟨hflags, hsub, ?_, ?_, ?_, fun c => rfl⟩ <;>
    exact fun hmem => absurd (hsub _ hmem) (by decide)

/-- Witness for C10 at a concretely produced report. -/
theorem report_flags_stylistic_witness :
    processArticle sampleSplit emptyCheck sampleArticle = some sampleReport ∧
    (sampleReport.flags = (analyzeMisinformationIndicators sampleArticle).flags ∧
      (∀ f ∈ sampleReport.flags, f ∈ stylisticFlagStrings) ∧
      "Contains conspiracy language" ∉ sampleReport.flags ∧
      "Contains verification indicators" ∉ sampleReport.flags ∧
      "Contains statistics without clear sources" ∉ sampleReport.flags ∧
      ∀ c : Claim,
        (heuristicFactCheck c).explanation =
          (if (heuristicFlags (strToLower c.text)).isEmpty then heuristicDefaultExplanation
           else String.intercalate "; " (heuristicFlags (strToLower c.text)))) :=
  ⟨by with_unfolding_all rfl,
    report_flags_stylistic sampleSplit emptyCheck sampleArticle sampleReport
      (by with_unfolding_all rfl)⟩

end NewsWatch
